import Mathlib

/-!
Shallow embedding of `src/server.js` of the mcp-airtable-server repository:
an Express HTTP gateway exposing four Airtable CRUD operations as tools.
JavaScript values that matter to the control flow (truthiness of arguments,
optional object properties) are modelled by `JSValue` and `Option`;
the axios upstream is modelled by an oracle
`UpstreamRequest → Except String String` whose `ok` value stands for the
serialized response payload `JSON.stringify(response.data, null, 2)` and
whose `error` value stands for the thrown error's `message`.
-/

namespace AirtableServer

/-- A JSON-ish JavaScript value, as far as the server inspects one. -/
inductive JSValue where
  | num (n : Int)
  | str (s : String)
  | jbool (b : Bool)
  | jnull
  | obj (entries : List (String × JSValue))
deriving Repr

/-- JavaScript truthiness of a `JSValue` (`0`, `""`, `false`, `null` are falsy;
objects are always truthy). -/
def jsTruthy : JSValue → Bool
  | .num n => n ≠ 0
  | .str s => s ≠ ""
  | .jbool b => b
  | .jnull => false
  | .obj _ => true

/-- Truthiness of an optional property: an absent property (`undefined`) is falsy. -/
def optTruthy : Option JSValue → Bool
  | none => false
  | some v => jsTruthy v

/-- How a `JSValue` renders inside a template literal such as
`\x60...${args.recordId}\x60`. -/
def jsTemplate : JSValue → String
  | .num n => toString n
  | .str s => s
  | .jbool b => if b then "true" else "false"
  | .jnull => "null"
  | .obj _ => "[object Object]"

/-- Template-literal rendering of an optional property (`undefined` renders
as the string "undefined"). -/
def optTemplate : Option JSValue → String
  | none => "undefined"
  | some v => jsTemplate v

/-- The process environment as read in lines 7-10 of `server.js`:
each variable is either absent or a string. -/
structure Env where
  AIRTABLE_API_TOKEN : Option String
  AIRTABLE_BASE_ID : Option String
  AIRTABLE_TABLE_NAME : Option String
  MCP_SERVER_SECRET : Option String
deriving Repr, DecidableEq

/-- An environment string is falsy in JavaScript when it is absent or empty. -/
def envFalsy : Option String → Bool
  | none => true
  | some s => s = ""

/-- The credential set held by a running process. -/
structure Config where
  apiToken : String
  baseId : String
  tableName : String
  serverSecret : String
deriving Repr, DecidableEq

/-- Startup validation, lines 15-19 of `server.js`: if any of the four
required environment variables is falsy the process exits with status 1;
otherwise the configuration is fixed for the process lifetime. -/
def startup (e : Env) : Except Nat Config :=
  if envFalsy e.AIRTABLE_API_TOKEN || envFalsy e.AIRTABLE_BASE_ID ||
      envFalsy e.AIRTABLE_TABLE_NAME || envFalsy e.MCP_SERVER_SECRET then
    .error 1
  else
    .ok { apiToken := e.AIRTABLE_API_TOKEN.getD ""
          baseId := e.AIRTABLE_BASE_ID.getD ""
          tableName := e.AIRTABLE_TABLE_NAME.getD ""
          serverSecret := e.MCP_SERVER_SECRET.getD "" }

/-- Characters left unescaped by ECMAScript `encodeURIComponent`:
alphanumerics and `- _ . ! ~ * ' ( )`. -/
def isUriUnescaped (c : Char) : Bool :=
  c.isAlphanum || c = '-' || c = '_' || c = '.' || c = '!' || c = '~' ||
    c = '*' || c.toNat = 39 || c = '(' || c = ')'

/-- Uppercase hexadecimal digit for `n < 16`. -/
def hexDigit (n : Nat) : Char :=
  if n < 10 then Char.ofNat (48 + n) else Char.ofNat (55 + n)

/-- The UTF-8 bytes of a character, as `encodeURIComponent` escapes them. -/
def utf8Bytes (c : Char) : List Nat :=
  let n := c.toNat
  if n < 128 then [n]
  else if n < 2048 then [192 + n / 64, 128 + n % 64]
  else if n < 65536 then [224 + n / 4096, 128 + (n / 64) % 64, 128 + n % 64]
  else [240 + n / 262144, 128 + (n / 4096) % 64, 128 + (n / 64) % 64, 128 + n % 64]

/-- Percent-escape of one byte: `%XX` with uppercase hex. -/
def percentByte (b : Nat) : String :=
  String.mk ['%', hexDigit (b / 16), hexDigit (b % 16)]

/-- ECMAScript `encodeURIComponent`. -/
def encodeURIComponent (s : String) : String :=
  String.join (s.toList.map fun c =>
    if isUriUnescaped c then String.mk [c]
    else String.join ((utf8Bytes c).map percentByte))

/-- The upstream URL for the configured base and table, as each of the four
tool functions composes it:
`https://api.airtable.com/v0/${AIRTABLE_BASE_ID}/${encodeURIComponent(AIRTABLE_TABLE_NAME)}`. -/
def tableURL (cfg : Config) : String :=
  "https://api.airtable.com/v0/" ++ cfg.baseId ++ "/" ++ encodeURIComponent cfg.tableName

/-- HTTP method of an upstream axios call. -/
inductive Method where
  | get
  | post
  | patch
  | delete
deriving Repr, DecidableEq

/-- Query parameters built by `getRecords` (lines 147-149): `maxRecords`
always present, `filterByFormula` and `view` only when truthy. -/
structure QueryParams where
  maxRecords : JSValue
  filterByFormula : Option JSValue
  view : Option JSValue
deriving Repr

/-- One upstream HTTP call as issued through axios. -/
structure UpstreamRequest where
  method : Method
  url : String
  headers : List (String × String)
  params : Option QueryParams
  body : Option JSValue
deriving Repr

/-- The upstream oracle: what axios does with a request. `ok payload` stands
for a 2xx response whose body serializes to `payload`; `error msg` stands for
a thrown error (non-2xx response, network failure, timeout) with
`error.message = msg`. -/
def Upstream := UpstreamRequest → Except String String

/-- The caller-supplied argument mapping (`req.body`), with every property
the four tool functions read. An absent property is `none` (undefined). -/
structure Args where
  maxRecords : Option JSValue := none
  filterByFormula : Option JSValue := none
  view : Option JSValue := none
  fields : Option JSValue := none
  recordId : Option JSValue := none
deriving Repr

/-- One content block of an invocation result. -/
structure ContentItem where
  type : String
  text : String
deriving Repr, DecidableEq

/-- An invocation result as the dispatcher returns it. On success the source
objects carry no `isError` property at all (modelled `none`); error results
carry `isError: true` (modelled `some true`). -/
structure InvocationResult where
  content : List ContentItem
  isError : Option Bool
deriving Repr, DecidableEq

/-- The authorization header attached to every upstream call. -/
def authHeaderFor (cfg : Config) : String × String :=
  ("Authorization", "Bearer " ++ cfg.apiToken)

/-- The query parameters built by `getRecords`, lines 147-149:
`maxRecords` defaults to 10 by JavaScript truthiness (`args.maxRecords || 10`);
`filterByFormula` and `view` are added only when truthy. -/
def getRecordsParams (args : Args) : QueryParams :=
  { maxRecords := if optTruthy args.maxRecords then args.maxRecords.getD (.num 10) else .num 10
    filterByFormula := if optTruthy args.filterByFormula then args.filterByFormula else none
    view := if optTruthy args.view then args.view else none }

/-- `getRecords` (lines 146-162): builds query parameters by truthiness,
issues a GET, and wraps the serialized payload with no message prefix. -/
def getRecords (cfg : Config) (up : Upstream) (args : Args) :
    List UpstreamRequest × Except String InvocationResult :=
  let req : UpstreamRequest :=
    { method := .get
      url := tableURL cfg
      headers := [authHeaderFor cfg]
      params := some (getRecordsParams args)
      body := none }
  ([req],
    match up req with
    | .error m => .error m
    | .ok payload => .ok { content := [{ type := "text", text := payload }], isError := none })

/-- `createRecord` (lines 164-179): POSTs `{fields: args.fields}` and wraps
the serialized payload behind "Record created: ". -/
def createRecord (cfg : Config) (up : Upstream) (args : Args) :
    List UpstreamRequest × Except String InvocationResult :=
  let req : UpstreamRequest :=
    { method := .post
      url := tableURL cfg
      headers := [authHeaderFor cfg, ("Content-Type", "application/json")]
      params := none
      body := some (.obj [("fields", args.fields.getD .jnull)]) }
  ([req],
    match up req with
    | .error m => .error m
    | .ok payload =>
      .ok { content := [{ type := "text", text := "Record created: " ++ payload }]
            isError := none })

/-- `updateRecord` (lines 181-196): PATCHes `{fields: args.fields}` at the
URL with the record id interpolated raw, and wraps the payload behind
"Record updated: ". -/
def updateRecord (cfg : Config) (up : Upstream) (args : Args) :
    List UpstreamRequest × Except String InvocationResult :=
  let req : UpstreamRequest :=
    { method := .patch
      url := tableURL cfg ++ "/" ++ optTemplate args.recordId
      headers := [authHeaderFor cfg, ("Content-Type", "application/json")]
      params := none
      body := some (.obj [("fields", args.fields.getD .jnull)]) }
  ([req],
    match up req with
    | .error m => .error m
    | .ok payload =>
      .ok { content := [{ type := "text", text := "Record updated: " ++ payload }]
            isError := none })

/-- `deleteRecord` (lines 198-209): DELETEs at the URL with the record id
interpolated raw, and wraps the payload behind "Record deleted: ". -/
def deleteRecord (cfg : Config) (up : Upstream) (args : Args) :
    List UpstreamRequest × Except String InvocationResult :=
  let req : UpstreamRequest :=
    { method := .delete
      url := tableURL cfg ++ "/" ++ optTemplate args.recordId
      headers := [authHeaderFor cfg]
      params := none
      body := none }
  ([req],
    match up req with
    | .error m => .error m
    | .ok payload =>
      .ok { content := [{ type := "text", text := "Record deleted: " ++ payload }]
            isError := none })

/-- The error envelope the dispatcher's catch clause builds (lines 137-142). -/
def errorResult (m : String) : InvocationResult :=
  { content := [{ type := "text", text := "Error: " ++ m }], isError := some true }

/-- The catch clause of `executeAirtableTool` (lines 137-142): a thrown
error becomes an error result; a returned result passes through. The list
of upstream calls already performed is kept either way. -/
def wrapOutcome (o : List UpstreamRequest × Except String InvocationResult) :
    List UpstreamRequest × InvocationResult :=
  match o.2 with
  | .ok res => (o.1, res)
  | .error m => (o.1, errorResult m)

/-- `executeAirtableTool` (lines 123-143): dispatch by tool name; an unknown
name throws "Unknown tool: <name>" which the surrounding catch, like any
error thrown by a tool function, converts to an error result. The function
is total: every outcome is an `InvocationResult`, paired with the list of
upstream calls performed. -/
def executeAirtableTool (cfg : Config) (up : Upstream) (toolName : String) (args : Args) :
    List UpstreamRequest × InvocationResult :=
  match toolName with
  | "airtable_get_records" => wrapOutcome (getRecords cfg up args)
  | "airtable_create_record" => wrapOutcome (createRecord cfg up args)
  | "airtable_update_record" => wrapOutcome (updateRecord cfg up args)
  | "airtable_delete_record" => wrapOutcome (deleteRecord cfg up args)
  | _ => ([], errorResult ("Unknown tool: " ++ toolName))

/-- The `authenticate` middleware, lines 27-33: the request passes exactly
when the Authorization header is present (truthy, so non-empty) and equal to
`Bearer <secret>`. -/
def authenticate (authHeader : Option String) (secret : String) : Bool :=
  match authHeader with
  | none => false
  | some h => (h != "") && (h == "Bearer " ++ secret)

/-- An incoming HTTP request over the routes the server registers.
For `postTool`, `body` is the JSON body already parsed into the argument
mapping by `express.json()`. -/
inductive HttpRequest where
  | getRoot
  | getHealth
  | getTools (authHeader : Option String)
  | postTool (authHeader : Option String) (toolName : String) (body : Args)
  | getDebug

/-- The JSON body of an HTTP response, one constructor per shape the server
sends (timestamps are not modelled). -/
inductive ResponseBody where
  | errorBody (error : String)
  | invocation (result : InvocationResult)
  | toolsCatalog
  | healthStatus
  | debugBody (hasSecret : Bool) (secretLength : Nat) (secretPreview : String)
deriving Repr

structure HttpResponse where
  status : Nat
  body : ResponseBody
deriving Repr

/-- The `/debug` handler, lines 219-225: registered without the
`authenticate` middleware, it reports the secret's configuration status,
length, and first five characters (each by JavaScript truthiness of the
secret string). -/
def debugHandler (cfg : Config) : HttpResponse :=
  { status := 200
    body := .debugBody (cfg.serverSecret != "")
      (if cfg.serverSecret != "" then cfg.serverSecret.length else 0)
      (if cfg.serverSecret != "" then cfg.serverSecret.take 5 ++ "..." else "undefined") }

/-- The route table, lines 86-120 and 219-225. `/tools` and
`/tools/:toolName` run `authenticate` first and stop at 401 on failure.
The POST handler awaits `executeAirtableTool` inside try/catch; since
`executeAirtableTool` is total (its own catch converts every failure into
an `InvocationResult`), the catch branch answering 500 is never taken, and
the handler answers 200 with the result. Each handler returns the list of
upstream calls performed alongside the response. -/
def handleRequest (cfg : Config) (up : Upstream) :
    HttpRequest → List UpstreamRequest × HttpResponse
  | .getRoot => ([], { status := 200, body := .healthStatus })
  | .getHealth => ([], { status := 200, body := .healthStatus })
  | .getTools h =>
    if authenticate h cfg.serverSecret then
      ([], { status := 200, body := .toolsCatalog })
    else
      ([], { status := 401, body := .errorBody "Unauthorized" })
  | .postTool h toolName body =>
    if authenticate h cfg.serverSecret then
      let out := executeAirtableTool cfg up toolName body
      (out.1, { status := 200, body := .invocation out.2 })
    else
      ([], { status := 401, body := .errorBody "Unauthorized" })
  | .getDebug => ([], debugHandler cfg)

/-- The whole process: startup validation runs once (lines 15-19); only
when it passes does `app.listen` bind a socket and begin serving requests
(line 212). `none` models a process that exited before accepting any
connection. -/
def runningServer (e : Env) (up : Upstream) :
    Option (HttpRequest → List UpstreamRequest × HttpResponse) :=
  match startup e with
  | .error _ => none
  | .ok cfg => some (handleRequest cfg up)

/-- A concrete credential set used to instantiate the theorems below. -/
def cfg0 : Config :=
  { apiToken := "tok", baseId := "app123", tableName := "My Table", serverSecret := "s3cret" }

/-- A concrete environment from which `startup` yields `cfg0`. -/
def e0 : Env :=
  { AIRTABLE_API_TOKEN := some "tok", AIRTABLE_BASE_ID := some "app123"
    AIRTABLE_TABLE_NAME := some "My Table", MCP_SERVER_SECRET := some "s3cret" }

/-- An upstream that answers every call with a 2xx response whose payload
serializes to "PAYLOAD". -/
def upOk : Upstream := fun _ => .ok "PAYLOAD"

/-- An upstream that fails every call the way axios reports a 404. -/
def upErr : Upstream := fun _ => .error "Request failed with status code 404"

theorem wrapOutcome_fst (o : List UpstreamRequest × Except String InvocationResult) :
    (wrapOutcome o).1 = o.1 := by
  unfold wrapOutcome
  split <;> rfl

theorem authenticate_eq_false (h : Option String) (secret : String)
    (hbad : ∀ s, h = some s → s ≠ "Bearer " ++ secret) :
    authenticate h secret = false := by
  cases h with
  | none => rfl
  | some s => simp [authenticate, hbad s rfl]

/-- C1 (counterexample to the claim as stated): a successful list dispatch
returns a result whose `isError` property is absent (`none`), not the
boolean `false`: the source's success objects carry no `isError` key. -/
theorem C1_counterexample :
    (executeAirtableTool cfg0 upOk "airtable_get_records" {}).2.isError = none ∧
    (executeAirtableTool cfg0 upOk "airtable_get_records" {}).2.isError ≠ some false := by
  constructor
  · rfl
  · decide

/-- C1 (amended): for every successful Upstream Client call, the dispatcher
returns an Invocation Result whose `isError` field is absent (undefined,
hence falsy, but not the literal `false`) and whose content is one text
block carrying the operation-specific message: list the raw serialized
payload with no message, create "Record created: " + payload, update
"Record updated: " + payload, delete "Record deleted: " + payload. -/
theorem C1_success_results (cfg : Config) (up : Upstream) (payload : String) (args : Args)
    (h : ∀ r, up r = .ok payload) :
    (executeAirtableTool cfg up "airtable_get_records" args).2 =
      { content := [{ type := "text", text := payload }], isError := none } ∧
    (executeAirtableTool cfg up "airtable_create_record" args).2 =
      { content := [{ type := "text", text := "Record created: " ++ payload }]
        isError := none } ∧
    (executeAirtableTool cfg up "airtable_update_record" args).2 =
      { content := [{ type := "text", text := "Record updated: " ++ payload }]
        isError := none } ∧
    (executeAirtableTool cfg up "airtable_delete_record" args).2 =
      { content := [{ type := "text", text := "Record deleted: " ++ payload }]
        isError := none } := by
  refine ⟨?_, ?_, ?_, ?_⟩ <;>
    simp [executeAirtableTool, wrapOutcome, getRecords, createRecord, updateRecord,
      deleteRecord, h]

/-- C1 witness: the amended theorem instantiated at `cfg0`, an upstream
answering "PAYLOAD" everywhere, and empty arguments. -/
theorem C1_success_results_witness :
    (executeAirtableTool cfg0 upOk "airtable_get_records" {}).2 =
      { content := [{ type := "text", text := "PAYLOAD" }], isError := none } ∧
    (executeAirtableTool cfg0 upOk "airtable_create_record" {}).2 =
      { content := [{ type := "text", text := "Record created: PAYLOAD" }]
        isError := none } ∧
    (executeAirtableTool cfg0 upOk "airtable_update_record" {}).2 =
      { content := [{ type := "text", text := "Record updated: PAYLOAD" }]
        isError := none } ∧
    (executeAirtableTool cfg0 upOk "airtable_delete_record" {}).2 =
      { content := [{ type := "text", text := "Record deleted: PAYLOAD" }]
        isError := none } :=
  C1_success_results cfg0 upOk "PAYLOAD" {} (fun _ => rfl)

/-- C2: dispatching any name outside the four registered tool names makes
no upstream call and returns the error result "Error: Unknown tool: <name>"
with `isError: true`, without raising past the dispatcher. -/
theorem C2_unknown_tool (cfg : Config) (up : Upstream) (args : Args) (name : String)
    (h : name ∉ ["airtable_get_records", "airtable_create_record",
        "airtable_update_record", "airtable_delete_record"]) :
    executeAirtableTool cfg up name args =
      ([], { content := [{ type := "text", text := "Error: Unknown tool: " ++ name }]
             isError := some true }) := by
  have hmsg : "Error: " ++ ("Unknown tool: " ++ name) = "Error: Unknown tool: " ++ name := by
    rw [← String.append_assoc]
    rfl
  simp only [List.mem_cons, List.not_mem_nil, or_false, not_or] at h
  obtain ⟨h1, h2, h3, h4⟩ := h
  unfold executeAirtableTool
  split
  · exact absurd rfl h1
  · exact absurd rfl h2
  · exact absurd rfl h3
  · exact absurd rfl h4
  · simp [errorResult, hmsg]

/-- C2 witness: the theorem at the unregistered name "foo". -/
theorem C2_unknown_tool_witness :
    executeAirtableTool cfg0 upOk "foo" {} =
      ([], { content := [{ type := "text", text := "Error: Unknown tool: foo" }]
             isError := some true }) :=
  C2_unknown_tool cfg0 upOk {} "foo" (by decide)

/-- C3: whenever the upstream fails (axios throws with message `m`, covering
non-2xx responses, network failures and timeouts), dispatching any of the
four registered tools returns `isError: true` with text "Error: " + m; the
dispatcher is a total function, so no exception reaches its caller. -/
theorem C3_upstream_failure (cfg : Config) (up : Upstream) (m : String) (args : Args)
    (name : String) (hup : ∀ r, up r = .error m)
    (hname : name ∈ ["airtable_get_records", "airtable_create_record",
        "airtable_update_record", "airtable_delete_record"]) :
    (executeAirtableTool cfg up name args).2 =
      { content := [{ type := "text", text := "Error: " ++ m }], isError := some true } := by
  simp only [List.mem_cons, List.not_mem_nil, or_false] at hname
  rcases hname with rfl | rfl | rfl | rfl <;>
    simp [executeAirtableTool, wrapOutcome, getRecords, createRecord, updateRecord,
      deleteRecord, errorResult, hup]

/-- C3 witness: a delete against an upstream that answers every call with a
404 failure message. -/
theorem C3_upstream_failure_witness :
    (executeAirtableTool cfg0 upErr "airtable_delete_record"
        { recordId := some (.str "rec123") }).2 =
      { content := [{ type := "text", text := "Error: Request failed with status code 404" }]
        isError := some true } :=
  C3_upstream_failure cfg0 upErr "Request failed with status code 404"
    { recordId := some (.str "rec123") } "airtable_delete_record"
    (fun _ => rfl) (by decide)

/-- C4: any request to GET /tools or POST /tools/:toolName whose
Authorization header is absent or differs from "Bearer " + secret is
answered 401 with body error "Unauthorized", with no dispatch and zero
upstream calls. -/
theorem C4_unauthorized (cfg : Config) (up : Upstream) (h : Option String)
    (hbad : ∀ s, h = some s → s ≠ "Bearer " ++ cfg.serverSecret)
    (name : String) (args : Args) :
    handleRequest cfg up (.getTools h) =
      ([], { status := 401, body := .errorBody "Unauthorized" }) ∧
    handleRequest cfg up (.postTool h name args) =
      ([], { status := 401, body := .errorBody "Unauthorized" }) := by
  have hfalse := authenticate_eq_false h cfg.serverSecret hbad
  constructor <;> simp [handleRequest, hfalse]

/-- C4 witness: the scenario of the spec, header "Bearer wrong". -/
theorem C4_unauthorized_witness :
    handleRequest cfg0 upOk (.getTools (some "Bearer wrong")) =
      ([], { status := 401, body := .errorBody "Unauthorized" }) ∧
    handleRequest cfg0 upOk (.postTool (some "Bearer wrong") "airtable_get_records" {}) =
      ([], { status := 401, body := .errorBody "Unauthorized" }) :=
  C4_unauthorized cfg0 upOk (some "Bearer wrong")
    (fun s hs => by cases hs; decide) "airtable_get_records" {}

/-- C5: every upstream URL is the fixed base, then the base identifier, then
the table name passed through `encodeURIComponent` exactly once; update and
delete append the caller's record id raw. The last two conjuncts exhibit on
"My Table" that one application yields the single-escaped segment and that a
second application would double-escape it to a different string. -/
theorem C5_url_composition (cfg : Config) (up : Upstream) (rid : String)
    (f : Option JSValue) (args : Args) :
    ((executeAirtableTool cfg up "airtable_update_record"
        { recordId := some (.str rid), fields := f }).1.map UpstreamRequest.url =
      ["https://api.airtable.com/v0/" ++ cfg.baseId ++ "/" ++
        encodeURIComponent cfg.tableName ++ "/" ++ rid]) ∧
    ((executeAirtableTool cfg up "airtable_delete_record"
        { recordId := some (.str rid) }).1.map UpstreamRequest.url =
      ["https://api.airtable.com/v0/" ++ cfg.baseId ++ "/" ++
        encodeURIComponent cfg.tableName ++ "/" ++ rid]) ∧
    ((executeAirtableTool cfg up "airtable_get_records" args).1.map UpstreamRequest.url =
      ["https://api.airtable.com/v0/" ++ cfg.baseId ++ "/" ++
        encodeURIComponent cfg.tableName]) ∧
    ((executeAirtableTool cfg up "airtable_create_record" args).1.map UpstreamRequest.url =
      ["https://api.airtable.com/v0/" ++ cfg.baseId ++ "/" ++
        encodeURIComponent cfg.tableName]) ∧
    encodeURIComponent "My Table" = "My%20Table" ∧
    encodeURIComponent (encodeURIComponent "My Table") = "My%2520Table" := by
  refine ⟨?_, ?_, ?_, ?_, by decide, by decide⟩ <;>
    simp [executeAirtableTool, wrapOutcome_fst, getRecords, createRecord, updateRecord,
      deleteRecord, tableURL, optTemplate, jsTemplate, String.append_assoc]

/-- C6 (counterexample to the claim as stated): the caller supplies
`filterByFormula` as the empty string, yet the issued read call carries no
`filterByFormula` query parameter — attachment is decided by truthiness,
not by presence. -/
theorem C6_counterexample :
    (({ filterByFormula := some (.str "") } : Args).filterByFormula ≠ none) ∧
    (executeAirtableTool cfg0 upOk "airtable_get_records"
        { filterByFormula := some (.str "") }).1.map
      (fun r => r.params.map QueryParams.filterByFormula) = [some none] := by
  constructor
  · simp
  · rfl

/-- C6 (amended): the read call always carries `maxRecords`, equal to 10
when the caller omits it; `filterByFormula` and `view` are attached exactly
when the caller supplies them as truthy values (e.g. nonempty strings) —
a supplied falsy value such as the empty string is dropped. -/
theorem C6_list_query_params (cfg : Config) (up : Upstream) (args : Args) :
    ((executeAirtableTool cfg up "airtable_get_records" args).1.map UpstreamRequest.params =
      [some (getRecordsParams args)]) ∧
    (args.maxRecords = none → (getRecordsParams args).maxRecords = .num 10) ∧
    (optTruthy args.filterByFormula = true →
      (getRecordsParams args).filterByFormula = args.filterByFormula) ∧
    (optTruthy args.filterByFormula = false →
      (getRecordsParams args).filterByFormula = none) ∧
    (optTruthy args.view = true → (getRecordsParams args).view = args.view) ∧
    (optTruthy args.view = false → (getRecordsParams args).view = none) := by
  refine ⟨?_, ?_, ?_, ?_, ?_, ?_⟩
  · simp [executeAirtableTool, wrapOutcome_fst, getRecords]
  · intro hm
    simp [getRecordsParams, optTruthy, hm]
  · intro hf
    simp [getRecordsParams, hf]
  · intro hf
    simp [getRecordsParams, hf]
  · intro hv
    simp [getRecordsParams, hv]
  · intro hv
    simp [getRecordsParams, hv]

/-- C6 witness: the amended theorem at a caller supplying a nonempty
formula and nothing else. -/
theorem C6_list_query_params_witness :
    ((executeAirtableTool cfg0 upOk "airtable_get_records"
        { filterByFormula := some (.str "X") }).1.map UpstreamRequest.params =
      [some (getRecordsParams { filterByFormula := some (.str "X") })]) ∧
    (getRecordsParams { filterByFormula := some (.str "X") }).maxRecords = .num 10 ∧
    (getRecordsParams { filterByFormula := some (.str "X") }).filterByFormula =
      some (.str "X") ∧
    (getRecordsParams { filterByFormula := some (.str "X") }).view = none :=
  ⟨(C6_list_query_params cfg0 upOk { filterByFormula := some (.str "X") }).1,
   (C6_list_query_params cfg0 upOk { filterByFormula := some (.str "X") }).2.1 rfl,
   (C6_list_query_params cfg0 upOk { filterByFormula := some (.str "X") }).2.2.1 rfl,
   (C6_list_query_params cfg0 upOk { filterByFormula := some (.str "X") }).2.2.2.2.2 rfl⟩

/-- C7: if any of the four required environment values is absent, startup
exits with status 1 (non-zero) and the process never begins serving
requests; the credential set is fixed by the one startup check. -/
theorem C7_startup_exit (e : Env) (up : Upstream)
    (h : e.AIRTABLE_API_TOKEN = none ∨ e.AIRTABLE_BASE_ID = none ∨
      e.AIRTABLE_TABLE_NAME = none ∨ e.MCP_SERVER_SECRET = none) :
    startup e = .error 1 ∧ (1 : Nat) ≠ 0 ∧ runningServer e up = none := by
  have hs : startup e = .error 1 := by
    rcases h with h | h | h | h <;> simp [startup, envFalsy, h]
  exact ⟨hs, by decide, by simp [runningServer, hs]⟩

/-- C7 witness: an environment missing the API token. -/
theorem C7_startup_exit_witness :
    startup { AIRTABLE_API_TOKEN := none, AIRTABLE_BASE_ID := some "app123"
              AIRTABLE_TABLE_NAME := some "My Table"
              MCP_SERVER_SECRET := some "s3cret" } = .error 1 ∧
    (1 : Nat) ≠ 0 ∧
    runningServer { AIRTABLE_API_TOKEN := none, AIRTABLE_BASE_ID := some "app123"
                    AIRTABLE_TABLE_NAME := some "My Table"
                    MCP_SERVER_SECRET := some "s3cret" } upOk = none :=
  C7_startup_exit _ upOk (Or.inl rfl)

theorem startup_ok_secret_ne (e : Env) (cfg : Config) (h : startup e = .ok cfg) :
    cfg.serverSecret ≠ "" := by
  unfold startup at h
  by_cases hc : (envFalsy e.AIRTABLE_API_TOKEN || envFalsy e.AIRTABLE_BASE_ID ||
      envFalsy e.AIRTABLE_TABLE_NAME || envFalsy e.MCP_SERVER_SECRET) = true
  · rw [if_pos hc] at h
    exact absurd h (by simp)
  · rw [if_neg hc] at h
    have hrec := Except.ok.inj h
    simp only [Bool.or_eq_true, not_or] at hc
    obtain ⟨-, h4⟩ := hc
    rw [← hrec]
    show (e.MCP_SERVER_SECRET.getD "") ≠ ""
    cases hm : e.MCP_SERVER_SECRET with
    | none =>
      rw [hm] at h4
      simp [envFalsy] at h4
    | some s =>
      rw [hm] at h4
      simp [envFalsy] at h4
      simpa [hm] using h4

/-- C8: GET /debug is served without any authentication check, and in any
process that passed startup validation it reports `hasSecret: true`, the
secret's (positive) length, and its first five characters. -/
theorem C8_debug_endpoint (e : Env) (cfg : Config) (up : Upstream)
    (h : startup e = .ok cfg) :
    handleRequest cfg up .getDebug =
      ([], { status := 200
             body := .debugBody true cfg.serverSecret.length
               (cfg.serverSecret.take 5 ++ "...") }) ∧
    0 < cfg.serverSecret.length := by
  have hne := startup_ok_secret_ne e cfg h
  have hb : (cfg.serverSecret != "") = true := by simp [hne]
  constructor
  · simp [handleRequest, debugHandler, hb]
  · cases hs : cfg.serverSecret with
    | mk l =>
      cases l with
      | nil => exact absurd hs hne
      | cons a t => simp [String.length]

/-- C8 witness: the theorem at the concrete environment `e0` yielding
`cfg0`. -/
theorem C8_debug_endpoint_witness :
    handleRequest cfg0 upOk .getDebug =
      ([], { status := 200
             body := .debugBody true cfg0.serverSecret.length
               (cfg0.serverSecret.take 5 ++ "...") }) ∧
    0 < cfg0.serverSecret.length :=
  C8_debug_endpoint e0 cfg0 upOk rfl

/-- C9: a caller-supplied `maxRecords` that is falsy (0, empty string,
null, false) is replaced by the default 10 in the issued query parameters,
so no caller can request zero records: the default is applied by
truthiness, not by absence of the key. -/
theorem C9_falsy_maxRecords (cfg : Config) (up : Upstream) (args : Args) (v : JSValue)
    (hv : args.maxRecords = some v) (hfalsy : jsTruthy v = false) :
    (getRecordsParams args).maxRecords = .num 10 ∧
    (executeAirtableTool cfg up "airtable_get_records" args).1.map UpstreamRequest.params =
      [some (getRecordsParams args)] := by
  constructor
  · simp [getRecordsParams, optTruthy, hv, hfalsy]
  · simp [executeAirtableTool, wrapOutcome_fst, getRecords]

/-- C9 witness: the theorem at `maxRecords = 0` and at `maxRecords = ""`. -/
theorem C9_falsy_maxRecords_witness :
    ((getRecordsParams { maxRecords := some (.num 0) }).maxRecords = .num 10) ∧
    ((getRecordsParams { maxRecords := some (.str "") }).maxRecords = .num 10) :=
  ⟨(C9_falsy_maxRecords cfg0 upOk { maxRecords := some (.num 0) } (.num 0) rfl rfl).1,
   (C9_falsy_maxRecords cfg0 upOk { maxRecords := some (.str "") } (.str "") rfl rfl).1⟩

/-- C10: because `executeAirtableTool` is total (its catch converts every
failure, including the unknown-tool throw and upstream rejections, into an
Invocation Result), the 500 branch of the POST handler is unreachable:
every authenticated POST whose body parsed into an argument mapping is
answered 200 with the dispatch result, for every tool name, argument
mapping, and upstream behavior. -/
theorem C10_post_always_200 (cfg : Config) (up : Upstream) (h : Option String)
    (name : String) (args : Args)
    (hauth : authenticate h cfg.serverSecret = true) :
    (handleRequest cfg up (.postTool h name args)).2.status = 200 ∧
    (handleRequest cfg up (.postTool h name args)).2.body =
      .invocation (executeAirtableTool cfg up name args).2 := by
  constructor <;> simp [handleRequest, hauth]

/-- C10 witness: an authenticated POST of an unknown tool name against a
failing upstream is still answered 200. -/
theorem C10_post_always_200_witness :
    (handleRequest cfg0 upErr (.postTool (some "Bearer s3cret") "nope" {})).2.status = 200 ∧
    (handleRequest cfg0 upErr (.postTool (some "Bearer s3cret") "nope" {})).2.body =
      .invocation (executeAirtableTool cfg0 upErr "nope" {}).2 :=
  C10_post_always_200 cfg0 upErr (some "Bearer s3cret") "nope" {} (by decide)

end AirtableServer
